import Mathlib

set_option maxRecDepth 8000

/-!
Shallow embedding of the Starknet x402 facilitator core
(`src/facilitator/starknet-verifier.ts`: `StarknetVerifier` and
`StarknetSettler`) together with theorems checking the repository's
natural-language specification against it.

Modelling conventions:
* JavaScript thrown values are modelled by `Exc`: `Exc.err msg` is an
  `Error` (or subclass such as `SettlementError`) carrying `msg` as its
  `.message`; `Exc.nonErr` is any thrown non-`Error` value.
* Fallible operations return `Except Exc α`.
* Chain access (`provider.callContract`, `provider.getTransactionReceipt`,
  `account.execute`, `provider.waitForTransaction`) is an external trusted
  capability; each call site's outcome is a field of an environment
  structure (`VerifyEnv`, `SettleEnv`).  Felt results returned by the
  chain are modelled by integers (the numeric value the source obtains
  via `BigInt(...)` on the returned felt strings).
* `amount`, `nonce` and `deadline` are modelled by the integer values the
  source obtains from them (`BigInt(payload.amount)`, `BigInt(payload.nonce)`,
  the numeric `payload.deadline`).
* The typed-data message hash itself (`typedData.getMessageHash`) and the
  legacy chain hash (`hash.computeHashOnElements`) are external
  cryptographic primitives; the embedding keeps the structured values fed
  to them (`TypedPaymentData`, the ordered legacy field list), which is
  what the specification's claims speak about.
-/

/-- A thrown JavaScript value: an `Error` with a message, or any other value. -/
inductive Exc where
  | err (msg : String)
  | nonErr
deriving DecidableEq

/-- `error instanceof Error ? error.message : dflt` -/
def Exc.message (e : Exc) (dflt : String) : String :=
  match e with
  | .err m => m
  | .nonErr => dflt

/-- Boolean substring containment, modelling JavaScript `String.includes`. -/
def strContains (s pat : String) : Bool :=
  decide (pat.toList <:+: s.toList)

/-- ASCII lowercase of one character.  On the ASCII strings this program
compares (hex addresses, network identifiers), JavaScript's `toLowerCase`
is exactly the `A`–`Z` shift. -/
def charToLower (c : Char) : Char :=
  if 'A' ≤ c ∧ c ≤ 'Z' then Char.ofNat (c.toNat + 32) else c

/-- JavaScript `String.toLowerCase`, restricted to ASCII as above. -/
def strToLower (s : String) : String :=
  String.mk (s.toList.map charToLower)

/-- JavaScript `String.startsWith`. -/
def strStartsWith (s pre : String) : Bool :=
  decide (pre.toList <+: s.toList)

/-- Curve signature: two scalar components, hex felt strings. -/
structure StarknetSignature where
  r : String
  s : String
deriving DecidableEq

/-- The client-supplied payment payload (`StarknetExactPayload`).  The
`types/x402.ts` module is not part of the provided sources; the field set
is taken from every use site in `starknet-verifier.ts`.  `amount` and
`nonce` are the integers their string fields denote, `deadline` the numeric
Unix timestamp. -/
structure StarknetExactPayload where
  «from» : String
  «to» : String
  token : String
  amount : Int
  nonce : Int
  deadline : Int
  signature : StarknetSignature
deriving DecidableEq

/-- The server-issued payment requirements consumed by verify/settle.
`maxAmountRequired` is the integer `BigInt(requirements.maxAmountRequired)`
denotes. -/
structure PaymentRequirements where
  payTo : String
  asset : String
  maxAmountRequired : Int
  maxTimeoutSeconds : Int
  network : String
deriving DecidableEq

/-- The verifier's decision: `{ isValid, invalidReason }`. -/
structure VerifyResponse where
  isValid : Bool
  invalidReason : Option String
deriving DecidableEq

/-- The settler's outcome: `{ success, error, txHash, networkId }`. -/
structure SettleResponse where
  success : Bool
  error : Option String
  txHash : Option String
  networkId : String
deriving DecidableEq

/-- Facilitator configuration.  `network` is read as `(config as any).network`
in the source, so it may be absent. -/
structure FacilitatorConfig where
  network : Option String
  accountAddress : Option String
  privateKey : Option String
deriving DecidableEq

/-- Modelled from the spec: the `NETWORKS.STARKNET_SEPOLIA` constant lives in
the missing `types/x402.ts`; the spec and `index.ts` use the testnet
identifier `starknet-sepolia`. -/
def NETWORKS_STARKNET_SEPOLIA : String := "starknet-sepolia"

namespace StarknetVerifier

/-- `getChainIdHex`: mainnet constant when the lowercased network name
contains `"main"`, otherwise the Sepolia testnet constant. -/
def getChainIdHex (network : String) : String :=
  if strContains (strToLower network) "main" then "0x534e5f4d41494e"
  else "0x534e5f5345504f4c4941"

/-- One byte as two lowercase hex digits. -/
def byteHex (n : Nat) : String :=
  let d := fun k => if k < 10 then Char.ofNat (48 + k) else Char.ofNat (87 + k)
  String.mk [d (n / 16 % 16), d (n % 16)]

/-- `shortString.encodeShortString`: the ASCII bytes of the string as a hex
felt literal. -/
def encodeShortString (s : String) : String :=
  "0x" ++ String.join (s.toList.map (fun c => byteHex c.toNat))

/-- The structured typed-data value (domain and message) fed to the external
`typedData.getMessageHash` primitive by `computeTypedPaymentMessageHash`.
The `types` block of the source is the fixed schema
`StarkNetDomain{name, version, chainId}` / `Payment{from, to, token, amount,
nonce, deadline}` and is implicit in this structure's shape. -/
structure TypedPaymentData where
  domainName : String
  domainVersion : String
  domainChainId : String
  msgFrom : String
  msgTo : String
  msgToken : String
  msgAmount : Int
  msgNonce : Int
  msgDeadline : Int
deriving DecidableEq

/-- `computeTypedPaymentMessageHash` up to the external hash primitive: the
typed value it constructs.  The domain's chain id comes from
`(config as any).network ?? NETWORKS.STARKNET_SEPOLIA`. -/
def computeTypedPaymentMessageHash (config : FacilitatorConfig)
    (payload : StarknetExactPayload) : TypedPaymentData :=
  { domainName := encodeShortString "x402 Payment"
    domainVersion := encodeShortString "1"
    domainChainId := getChainIdHex (config.network.getD NETWORKS_STARKNET_SEPOLIA)
    msgFrom := payload.«from»
    msgTo := payload.«to»
    msgToken := payload.token
    msgAmount := payload.amount
    msgNonce := payload.nonce
    msgDeadline := payload.deadline }

/-- `computeFallbackPaymentHash` up to the external `hash.computeHashOnElements`
primitive: the ordered field list it hashes. -/
def computeFallbackPaymentHash (payload : StarknetExactPayload) : List String :=
  [payload.«from», payload.«to», payload.token, toString payload.amount,
    toString payload.nonce, toString payload.deadline]

/-- `isValidStarknetAddress`: non-empty, optional `0x`, at least one hex digit
(the regex `^[0-9a-fA-F]+$`), at most 64 hex digits. -/
def isHexDigitChar (c : Char) : Bool :=
  (decide ('0' ≤ c) && decide (c ≤ '9')) ||
  (decide ('a' ≤ c) && decide (c ≤ 'f')) ||
  (decide ('A' ≤ c) && decide (c ≤ 'F'))

/-- `isValidStarknetAddress` from the source. -/
def isValidStarknetAddress (address : String) : Bool :=
  if address.isEmpty then false
  else
    let cleanAddress := if strStartsWith address "0x" then address.drop 2 else address
    if cleanAddress.isEmpty then false
    else if !(cleanAddress.toList.all isHexDigitChar) then false
    else if cleanAddress.length > 64 then false
    else true

/-- Per-call outcomes of the verifier's read-only chain queries.  A single
`verifyExactPayment` run consults each call site at most once, so a fixed
outcome per site is fully general.  `now` is `Math.floor(Date.now()/1000)`
at verification time. -/
structure VerifyEnv where
  now : Int
  primaryCall : TypedPaymentData → Except Exc (List Int)
  pubKeyCall : Except Exc (List Int)
  ecVerify : Except Exc Bool
  balanceCall : Except Exc (List Int)

/-- `getAccountPublicKey`: first element of the `get_public_key` result, or
`null` on empty result or any error. -/
def getAccountPublicKey (env : VerifyEnv) : Option Int :=
  match env.pubKeyCall with
  | .ok res => res.head?
  | .error _ => none

/-- `verifySignature`: primary account-contract validation, with fallback to
raw public-key curve verification only when the primary chain query throws. -/
def verifySignature (config : FacilitatorConfig) (env : VerifyEnv)
    (payload : StarknetExactPayload) : Bool :=
  let messageHash := computeTypedPaymentMessageHash config payload
  match env.primaryCall messageHash with
  | .ok res =>
    match res.head? with
    | some v0 => v0 != 0
    | none => false
  | .error _ =>
    match getAccountPublicKey env with
    | none => false
    | some _publicKey =>
      match env.ecVerify with
      | .ok b => b
      | .error _ => false

/-- `verifyNonce`: the format-only stub — `BigInt(payload.nonce)` must be
non-negative; no chain query is made. -/
def verifyNonce (payload : StarknetExactPayload) : Bool :=
  if payload.nonce < 0 then false else true

/-- `checkBalance`: `balanceOf` as a u256 `(low, high)` pair compared against
the amount; any error or short result is `false`. -/
def checkBalance (env : VerifyEnv) (amount : Int) : Bool :=
  match env.balanceCall with
  | .ok res =>
    match res with
    | low :: high :: _ => decide (low + high * 2 ^ 128 ≥ amount)
    | _ => false
  | .error _ => false

/-- `verifyExactPayment`: the eight checks in source order, short-circuiting
on the first failure.  The source's top-level `catch` is unreachable in the
embedding because every modelled step is total (each helper catches its own
errors; the `BigInt` conversions are modelled as the already-parsed integer
fields). -/
def verifyExactPayment (config : FacilitatorConfig) (env : VerifyEnv)
    (payload : StarknetExactPayload) (requirements : PaymentRequirements) :
    VerifyResponse :=
  if !(isValidStarknetAddress payload.«from») then
    ⟨false, some "Invalid sender address"⟩
  else if !(isValidStarknetAddress payload.«to») then
    ⟨false, some "Invalid recipient address"⟩
  else if !(isValidStarknetAddress payload.token) then
    ⟨false, some "Invalid token address"⟩
  else if strToLower payload.«to» ≠ strToLower requirements.payTo then
    ⟨false, some "Recipient address does not match requirements"⟩
  else if strToLower payload.token ≠ strToLower requirements.asset then
    ⟨false, some "Token address does not match requirements"⟩
  else
    let amount := payload.amount
    let maxAmount := requirements.maxAmountRequired
    if amount > maxAmount then
      ⟨false, some ("Amount " ++ toString amount ++ " exceeds maximum " ++
        toString maxAmount)⟩
    else if amount ≤ 0 then
      ⟨false, some "Amount must be greater than zero"⟩
    else
      let now := env.now
      if payload.deadline ≤ now then
        ⟨false, some "Payment deadline has expired"⟩
      else if payload.deadline - now > requirements.maxTimeoutSeconds then
        ⟨false, some "Payment deadline exceeds maximum timeout"⟩
      else if !(verifySignature config env payload) then
        ⟨false, some "Invalid signature"⟩
      else if !(verifyNonce payload) then
        ⟨false, some "Invalid or already used nonce"⟩
      else if !(checkBalance env amount) then
        ⟨false, some "Insufficient token balance"⟩
      else
        ⟨true, none⟩

end StarknetVerifier

namespace StarknetSettler

/-- The single state-mutating call the settler builds in `executePayment`:
an ERC20 `transfer_from` on the token contract, with calldata
`{sender, recipient, amount : u256(low, high)}` compiled by
`CallData.compile` / `uint256.bnToUint256`. -/
structure TransferCall where
  contractAddress : String
  entrypoint : String
  sender : String
  recipient : String
  amountLow : Int
  amountHigh : Int
deriving DecidableEq

/-- The call `executePayment` constructs from the payload. -/
def executePaymentCall (payload : StarknetExactPayload) : TransferCall :=
  { contractAddress := payload.token
    entrypoint := "transfer_from"
    sender := payload.«from»
    recipient := payload.«to»
    amountLow := payload.amount % 2 ^ 128
    amountHigh := payload.amount / 2 ^ 128 }

/-- One `provider.getTransactionReceipt` outcome inside the settler's own
confirmation poller: a receipt (modelled by its `execution_status` and
`revert_reason` fields; a `null`/statusless receipt is
`receipt none none`), or a thrown error. -/
inductive PollResult where
  | receipt (execStatus : Option String) (revertReason : Option String)
  | failure (e : Exc)
deriving DecidableEq

/-- Per-call outcomes of the settler's chain interactions.  `hasAccount`
models whether `this.account` is non-null (facilitator identity
configured); `execute` is `account.execute` on the built call, returning
`some txHash` when the response carries a transaction hash and `none`
when it carries none; `executeResRepr` is `JSON.stringify(res)` for the
missing-hash error message; `providerWait` is the external library's
`provider.waitForTransaction`; `receipts n` is the receipt lookup the
settler's own poller would make on its `n`-th iteration. -/
structure SettleEnv where
  hasAccount : Bool
  execute : TransferCall → Except Exc (Option String)
  executeResRepr : String
  providerWait : String → Except Exc Unit
  receipts : Nat → PollResult

/-- `executePayment`: guard on the account, build the `transfer_from` call,
submit it once through `account.execute`, fail when no transaction hash
comes back.  The second component logs every submission made, so that
claims about submission count and content are statable. -/
def executePayment (env : SettleEnv) (payload : StarknetExactPayload) :
    Except Exc String × List TransferCall :=
  if !env.hasAccount then
    (.error (.err "Account not initialized"), [])
  else
    let call := executePaymentCall payload
    match env.execute call with
    | .error e => (.error e, [call])
    | .ok none =>
      (.error (.err ("No tx hash returned from account.execute: " ++
        env.executeResRepr)), [call])
    | .ok (some txHash) => (.ok txHash, [call])

/-- `settleExactPayment`: guard on the account, submit via `executePayment`,
then wait for confirmation with `provider.waitForTransaction` (the external
library primitive — not the class's own `waitForTransaction` below, which
the source never calls).  Any thrown error is caught and returned as
`{success: false, error: message-or-"Settlement failed"}`.  The second
component is the submission log from `executePayment`. -/
def settleExactPayment (env : SettleEnv) (payload : StarknetExactPayload)
    (requirements : PaymentRequirements) : SettleResponse × List TransferCall :=
  if !env.hasAccount then
    (⟨false, some "Facilitator account not initialized", none, requirements.network⟩, [])
  else
    match executePayment env payload with
    | (.error e, log) =>
      (⟨false, some (e.message "Settlement failed"), none, requirements.network⟩, log)
    | (.ok txHash, log) =>
      match env.providerWait txHash with
      | .ok _ => (⟨true, none, some txHash, requirements.network⟩, log)
      | .error e =>
        (⟨false, some (e.message "Settlement failed"), none, requirements.network⟩, log)

/-- One iteration body of the settler's own `waitForTransaction` loop,
mirroring the source's `try`/`catch`: a receipt with `SUCCEEDED` returns;
`REVERTED` throws `Transaction reverted: reason-or-"Unknown reason"`, which
the enclosing `catch` re-examines (swallowing it only in the degenerate case
where it happens to contain `"Transaction hash not found"`); any other
receipt sleeps and retries; a thrown lookup error is swallowed and retried
exactly when its message contains `"Transaction hash not found"`, and is
re-thrown otherwise.  `none` means "sleep 2000 ms and poll again". -/
def pollStep (p : PollResult) : Option (Except Exc Unit) :=
  match p with
  | .receipt execStatus revertReason =>
    if execStatus = some "SUCCEEDED" then some (.ok ())
    else if execStatus = some "REVERTED" then
      let msg := "Transaction reverted: " ++ revertReason.getD "Unknown reason"
      if strContains msg "Transaction hash not found" then none
      else some (.error (.err msg))
    else none
  | .failure e =>
    match e with
    | .err m =>
      if strContains m "Transaction hash not found" then none
      else some (.error (.err m))
    | .nonErr => some (.error .nonErr)

/-- The polling loop of the settler's own `waitForTransaction`, with wall
time made explicit: every non-terminal iteration sleeps 2000 ms, so a
budget of `maxWaitTimeMs` admits `⌈maxWaitTimeMs / 2000⌉` receipt lookups
(`fuel`); when the budget is exhausted the loop throws
`Transaction confirmation timeout`. -/
def waitForTransactionAux (receipts : Nat → PollResult) (i fuel : Nat) :
    Except Exc Unit :=
  match fuel with
  | 0 => .error (.err "Transaction confirmation timeout")
  | fuel + 1 =>
    match pollStep (receipts i) with
    | some outcome => outcome
    | none => waitForTransactionAux receipts (i + 1) fuel

/-- The settler's own `waitForTransaction(txHash, maxWaitTimeMs = 60000)`:
poll every 2000 ms within the wait budget.  With the default 60000 ms
budget this is 30 polls.  The source never invokes this method from
`settleExactPayment`. -/
def waitForTransaction (env : SettleEnv) (maxWaitTimeMs : Nat) :
    Except Exc Unit :=
  waitForTransactionAux env.receipts 0 ((maxWaitTimeMs + 1999) / 2000)

end StarknetSettler

/-- All three payload addresses pass the structural format check (the
verifier's check 1). -/
@[reducible] def addrOk (payload : StarknetExactPayload) : Prop :=
  StarknetVerifier.isValidStarknetAddress payload.«from» = true ∧
  StarknetVerifier.isValidStarknetAddress payload.«to» = true ∧
  StarknetVerifier.isValidStarknetAddress payload.token = true

/-- Recipient and token match the requirements under the verifier's
case-insensitive textual comparison (checks 2 and 3). -/
@[reducible] def matchOk (payload : StarknetExactPayload)
    (requirements : PaymentRequirements) : Prop :=
  strToLower payload.«to» = strToLower requirements.payTo ∧
  strToLower payload.token = strToLower requirements.asset

/-- Value of one hex digit. -/
def hexDigitVal (c : Char) : Nat :=
  if '0' ≤ c ∧ c ≤ '9' then c.toNat - 48
  else if 'a' ≤ c ∧ c ≤ 'f' then c.toNat - 87
  else if 'A' ≤ c ∧ c ≤ 'F' then c.toNat - 55
  else 0

/-- The felt (numeric) value a hex address string denotes: optional `0x`
stripped, digits read base 16.  Two different well-formed strings (extra
leading zeros, missing `0x`) can denote the same felt. -/
def hexFeltVal (s : String) : Nat :=
  let clean := if strStartsWith s "0x" then s.drop 2 else s
  clean.toList.foldl (fun a c => 16 * a + hexDigitVal c) 0

/-! Concrete fixtures used by counterexamples and witnesses. -/

/-- Facilitator configured for the testnet. -/
def cfgSep : FacilitatorConfig :=
  { network := some "starknet-sepolia", accountAddress := some "0xaaaa",
    privateKey := some "0xbbbb" }

/-- Facilitator configured for mainnet. -/
def cfgMain : FacilitatorConfig := { cfgSep with network := some "starknet-mainnet" }

/-- A concrete signature value. -/
def sig0 : StarknetSignature := { r := "0x7", s := "0x8" }

/-- A payload satisfying every requirement of `R0` at time 1000. -/
def P0 : StarknetExactPayload :=
  { «from» := "0xa1", «to» := "0xb2", token := "0xc3", amount := 5000,
    nonce := 1, deadline := 1060, signature := sig0 }

/-- Requirements matched by `P0`, on the testnet. -/
def R0 : PaymentRequirements :=
  { payTo := "0xb2", asset := "0xc3", maxAmountRequired := 5000,
    maxTimeoutSeconds := 300, network := "starknet-sepolia" }

/-- The same requirements naming mainnet as the target network. -/
def reqsMainnet : PaymentRequirements := { R0 with network := "starknet-mainnet" }

/-- A verification environment at time 1000 where every chain query
succeeds: the account contract accepts the signature, the raw public key
is available, curve verification passes and the balance is ample. -/
def env0 : StarknetVerifier.VerifyEnv :=
  { now := 1000, primaryCall := fun _ => .ok [1], pubKeyCall := .ok [5],
    ecVerify := .ok true, balanceCall := .ok [10000, 0] }

/-- Like `env0`, but the primary signature query throws while the fallback
path succeeds. -/
def envPrimaryDown : StarknetVerifier.VerifyEnv :=
  { env0 with primaryCall := fun _ => .error (.err "rpc unavailable") }

/-- Like `env0`, but the account contract's signature query completes and
returns zero (signature rejected). -/
def envPrimaryZero : StarknetVerifier.VerifyEnv :=
  { env0 with primaryCall := fun _ => .ok [0] }

/-- Like `env0`, but the balance query throws. -/
def envBalanceDown : StarknetVerifier.VerifyEnv :=
  { env0 with balanceCall := .error (.err "balance rpc down") }

/-- `P0` with a recipient that does not match `R0.payTo`. -/
def P_badTo : StarknetExactPayload := { P0 with «to» := "0xdd" }

/-- `P0` with amount 6000, exceeding `R0`'s maximum 5000. -/
def P_amount6000 : StarknetExactPayload := { P0 with amount := 6000 }

/-- `P0` already expired at time 1000. -/
def P_expired : StarknetExactPayload := { P0 with deadline := 900 }

/-- `P0` with the recipient written with an extra leading zero: the same
felt as `R0.payTo`, a different string. -/
def P_paddedTo : StarknetExactPayload := { P0 with «to» := "0x0b2" }

/-- `P0` with the token written without the `0x` prefix: the same felt as
`R0.asset`, a different string. -/
def P_noPrefixToken : StarknetExactPayload := { P0 with token := "c3" }

/-- A settlement environment where submission succeeds with hash `0xabc`,
the provider's own wait succeeds, and the first receipt poll would report
success. -/
def settleEnv0 : StarknetSettler.SettleEnv :=
  { hasAccount := true, execute := fun _ => .ok (some "0xabc"),
    executeResRepr := "{}", providerWait := fun _ => .ok (),
    receipts := fun _ => .receipt (some "SUCCEEDED") none }

/-- Like `settleEnv0`, but the transaction only confirms on the 46th poll
(i.e. after 90 s, past the 60 s budget of the settler's own poller); the
provider's unbounded wait still eventually succeeds. -/
def settleEnvLateConfirm : StarknetSettler.SettleEnv :=
  { settleEnv0 with
    receipts := fun n => if n < 45 then .receipt none none
      else .receipt (some "SUCCEEDED") none }

/-- The verifier's outcome when one of the five static checks
(address structure, recipient match, token match) fails: the rejection the
first failing static check produces.  Proof-support definition: it names
the environment-independent value `verifyExactPayment` returns in that
case. -/
def staticReject (payload : StarknetExactPayload)
    (requirements : PaymentRequirements) : VerifyResponse :=
  if !(StarknetVerifier.isValidStarknetAddress payload.«from») then
    ⟨false, some "Invalid sender address"⟩
  else if !(StarknetVerifier.isValidStarknetAddress payload.«to») then
    ⟨false, some "Invalid recipient address"⟩
  else if !(StarknetVerifier.isValidStarknetAddress payload.token) then
    ⟨false, some "Invalid token address"⟩
  else if strToLower payload.«to» ≠ strToLower requirements.payTo then
    ⟨false, some "Recipient address does not match requirements"⟩
  else
    ⟨false, some "Token address does not match requirements"⟩

/-- C3: the verifier's nonce check (step 7) is a format-only stub — it
passes exactly when the payload's nonce is a non-negative integer.  It is
a function of the payload alone (its type takes no chain environment), so
it issues no on-chain query of replay state, and a previously used nonce
value passes it all the same. -/
theorem C3_main (payload : StarknetExactPayload) :
    StarknetVerifier.verifyNonce payload = decide (0 ≤ payload.nonce) := by
  unfold StarknetVerifier.verifyNonce
  split <;> simp_all

/-- C1, counterexample: with the facilitator configured for the testnet
but requirements naming mainnet, the typed-message domain still carries
the testnet chain-id constant — the chain id is not derived from
`requirements.network`, which here would dictate the mainnet constant. -/
theorem C1_cex :
    reqsMainnet.network = "starknet-mainnet" ∧
    StarknetVerifier.getChainIdHex reqsMainnet.network = "0x534e5f4d41494e" ∧
    cfgSep.network = some "starknet-sepolia" ∧
    (StarknetVerifier.computeTypedPaymentMessageHash cfgSep P0).domainChainId =
      "0x534e5f5345504f4c4941" ∧
    ("0x534e5f4d41494e" : String) ≠ "0x534e5f5345504f4c4941" := by
  exact ⟨rfl, rfl, rfl, rfl, by decide⟩

/-- C1, amended: the typed-message value hashed in the primary signature
path covers exactly the six payload fields `{from, to, token, amount,
nonce, deadline}` under the fixed domain (name `'x402 Payment'`, version
`'1'` as short-string felts); its chain id is derived from the
facilitator configuration's network (defaulting to the testnet identifier
when unset), not from `requirements.network`: mainnet constant when that
configured identifier names mainnet (contains `"main"` case-insensitively),
otherwise the testnet constant. -/
theorem C1_main (config : FacilitatorConfig) (payload : StarknetExactPayload) :
    ((StarknetVerifier.computeTypedPaymentMessageHash config payload).msgFrom,
     (StarknetVerifier.computeTypedPaymentMessageHash config payload).msgTo,
     (StarknetVerifier.computeTypedPaymentMessageHash config payload).msgToken,
     (StarknetVerifier.computeTypedPaymentMessageHash config payload).msgAmount,
     (StarknetVerifier.computeTypedPaymentMessageHash config payload).msgNonce,
     (StarknetVerifier.computeTypedPaymentMessageHash config payload).msgDeadline) =
      (payload.«from», payload.«to», payload.token, payload.amount,
       payload.nonce, payload.deadline) ∧
    ((StarknetVerifier.computeTypedPaymentMessageHash config payload).domainName,
     (StarknetVerifier.computeTypedPaymentMessageHash config payload).domainVersion) =
      ("0x78343032205061796d656e74", "0x31") ∧
    (StarknetVerifier.computeTypedPaymentMessageHash config payload).domainChainId =
      StarknetVerifier.getChainIdHex (config.network.getD NETWORKS_STARKNET_SEPOLIA) ∧
    (strContains (strToLower (config.network.getD NETWORKS_STARKNET_SEPOLIA)) "main" = true →
      (StarknetVerifier.computeTypedPaymentMessageHash config payload).domainChainId =
        "0x534e5f4d41494e") ∧
    (strContains (strToLower (config.network.getD NETWORKS_STARKNET_SEPOLIA)) "main" = false →
      (StarknetVerifier.computeTypedPaymentMessageHash config payload).domainChainId =
        "0x534e5f5345504f4c4941") := by
  refine ⟨rfl, rfl, rfl, ?_, ?_⟩ <;>
    · intro h
      simp [StarknetVerifier.computeTypedPaymentMessageHash,
        StarknetVerifier.getChainIdHex, h]

/-- C1, witness for the amended theorem: with the facilitator configured
for mainnet, the typed-message domain carries the mainnet chain-id
constant. -/
theorem C1_wit :
    (StarknetVerifier.computeTypedPaymentMessageHash cfgMain P0).domainChainId =
      "0x534e5f4d41494e" :=
  (C1_main cfgMain P0).2.2.2.1 (by decide)

lemma staticReject_isValid (payload : StarknetExactPayload)
    (requirements : PaymentRequirements) :
    (staticReject payload requirements).isValid = false := by
  unfold staticReject
  repeat' split
  all_goals rfl

lemma staticReject_shape (payload : StarknetExactPayload)
    (requirements : PaymentRequirements) :
    ∃ s, staticReject payload requirements = ⟨false, some s⟩ := by
  unfold staticReject
  repeat' split
  all_goals exact ⟨_, rfl⟩

lemma verify_static_fail (config : FacilitatorConfig)
    (env : StarknetVerifier.VerifyEnv) (payload : StarknetExactPayload)
    (requirements : PaymentRequirements)
    (h : ¬(addrOk payload ∧ matchOk payload requirements)) :
    StarknetVerifier.verifyExactPayment config env payload requirements =
      staticReject payload requirements := by
  unfold StarknetVerifier.verifyExactPayment staticReject
  by_cases h1 : StarknetVerifier.isValidStarknetAddress payload.«from» <;>
  by_cases h2 : StarknetVerifier.isValidStarknetAddress payload.«to» <;>
  by_cases h3 : StarknetVerifier.isValidStarknetAddress payload.token <;>
  by_cases h4 : strToLower payload.«to» = strToLower requirements.payTo <;>
  by_cases h5 : strToLower payload.token = strToLower requirements.asset <;>
    simp_all [addrOk, matchOk]

lemma verify_of_static_ok (config : FacilitatorConfig)
    (env : StarknetVerifier.VerifyEnv) (payload : StarknetExactPayload)
    (requirements : PaymentRequirements)
    (ha : addrOk payload) (hm : matchOk payload requirements) :
    StarknetVerifier.verifyExactPayment config env payload requirements =
      (if payload.amount > requirements.maxAmountRequired then
        ⟨false, some ("Amount " ++ toString payload.amount ++
          " exceeds maximum " ++ toString requirements.maxAmountRequired)⟩
      else if payload.amount ≤ 0 then
        ⟨false, some "Amount must be greater than zero"⟩
      else if payload.deadline ≤ env.now then
        ⟨false, some "Payment deadline has expired"⟩
      else if payload.deadline - env.now > requirements.maxTimeoutSeconds then
        ⟨false, some "Payment deadline exceeds maximum timeout"⟩
      else if !(StarknetVerifier.verifySignature config env payload) then
        ⟨false, some "Invalid signature"⟩
      else if !(StarknetVerifier.verifyNonce payload) then
        ⟨false, some "Invalid or already used nonce"⟩
      else if !(StarknetVerifier.checkBalance env payload.amount) then
        ⟨false, some "Insufficient token balance"⟩
      else
        ⟨true, none⟩) := by
  obtain ⟨h1, h2, h3⟩ := ha
  obtain ⟨h4, h5⟩ := hm
  unfold StarknetVerifier.verifyExactPayment
  simp [h1, h2, h3, h4, h5]

/-- C5: the verifier short-circuits its checks in the fixed source order.
Whenever any of the five static checks (address structure, recipient
match, token match) fails, the result is `Invalid` and is independent of
every chain query — in particular the signature check never runs.
Specifically, for every payload whose recipient differs from
`requirements.payTo` case-insensitively, the result is `Invalid` whatever
the signature oracle would answer, and — when the addresses are
structurally well formed so that the recipient check is the first to
fail — the reason is exactly the recipient-mismatch reason. -/
theorem C5_main (config : FacilitatorConfig)
    (e1 e2 : StarknetVerifier.VerifyEnv) (payload : StarknetExactPayload)
    (requirements : PaymentRequirements) :
    (¬(addrOk payload ∧ matchOk payload requirements) →
      (StarknetVerifier.verifyExactPayment config e1 payload requirements).isValid = false ∧
      StarknetVerifier.verifyExactPayment config e1 payload requirements =
        StarknetVerifier.verifyExactPayment config e2 payload requirements) ∧
    (strToLower payload.«to» ≠ strToLower requirements.payTo →
      (StarknetVerifier.verifyExactPayment config e1 payload requirements).isValid = false ∧
      StarknetVerifier.verifyExactPayment config e1 payload requirements =
        StarknetVerifier.verifyExactPayment config e2 payload requirements) ∧
    (addrOk payload → strToLower payload.«to» ≠ strToLower requirements.payTo →
      StarknetVerifier.verifyExactPayment config e1 payload requirements =
        ⟨false, some "Recipient address does not match requirements"⟩) := by
  have static : ∀ h : ¬(addrOk payload ∧ matchOk payload requirements),
      (StarknetVerifier.verifyExactPayment config e1 payload requirements).isValid = false ∧
      StarknetVerifier.verifyExactPayment config e1 payload requirements =
        StarknetVerifier.verifyExactPayment config e2 payload requirements := by
    intro h
    rw [verify_static_fail config e1 payload requirements h,
      verify_static_fail config e2 payload requirements h]
    exact ⟨staticReject_isValid payload requirements, rfl⟩
  refine ⟨static, ?_, ?_⟩
  · intro hmis
    exact static (fun hall => hmis hall.2.1)
  · intro ha hmis
    rw [verify_static_fail config e1 payload requirements (fun hall => hmis hall.2.1)]
    unfold staticReject
    simp [ha.1, ha.2.1, ha.2.2, hmis]

/-- C5, witness: a payload whose recipient `0xdd` differs from the
required `0xb2` is rejected with the recipient-mismatch reason even
though the signature oracle in `env0` accepts everything. -/
theorem C5_wit :
    StarknetVerifier.verifyExactPayment cfgSep env0 P_badTo R0 =
      ⟨false, some "Recipient address does not match requirements"⟩ :=
  (C5_main cfgSep env0 env0 P_badTo R0).2.2 (by decide) (by decide)

/-- C10: the recipient and token checks compare lowercased hex strings
textually, not the felt values they denote: a payload whose recipient
(or token) denotes the same felt as `requirements.payTo` (resp.
`requirements.asset`) but is written differently is rejected as a
mismatch. -/
theorem C10_main (config : FacilitatorConfig)
    (env : StarknetVerifier.VerifyEnv) (payload : StarknetExactPayload)
    (requirements : PaymentRequirements) :
    (addrOk payload → hexFeltVal payload.«to» = hexFeltVal requirements.payTo →
      strToLower payload.«to» ≠ strToLower requirements.payTo →
      StarknetVerifier.verifyExactPayment config env payload requirements =
        ⟨false, some "Recipient address does not match requirements"⟩) ∧
    (addrOk payload → strToLower payload.«to» = strToLower requirements.payTo →
      hexFeltVal payload.token = hexFeltVal requirements.asset →
      strToLower payload.token ≠ strToLower requirements.asset →
      StarknetVerifier.verifyExactPayment config env payload requirements =
        ⟨false, some "Token address does not match requirements"⟩) := by
  constructor
  · intro ha _ hmis
    rw [verify_static_fail config env payload requirements (fun hall => hmis hall.2.1)]
    unfold staticReject
    simp [ha.1, ha.2.1, ha.2.2, hmis]
  · intro ha hto _ hmis
    rw [verify_static_fail config env payload requirements (fun hall => hmis hall.2.2)]
    unfold staticReject
    simp [ha.1, ha.2.1, ha.2.2, hto, hmis]

/-- C10, witness: `0x0b2` denotes the same felt as the required recipient
`0xb2` but is rejected; `c3` (no `0x` prefix) denotes the same felt as
the required token `0xc3` but is rejected. -/
theorem C10_wit :
    StarknetVerifier.verifyExactPayment cfgSep env0 P_paddedTo R0 =
      ⟨false, some "Recipient address does not match requirements"⟩ ∧
    StarknetVerifier.verifyExactPayment cfgSep env0 P_noPrefixToken R0 =
      ⟨false, some "Token address does not match requirements"⟩ :=
  ⟨(C10_main cfgSep env0 P_paddedTo R0).1 (by decide) (by decide) (by decide),
   (C10_main cfgSep env0 P_noPrefixToken R0).2 (by decide) (by decide)
     (by decide) (by decide)⟩

/-- C6: whenever `amount <= 0` or `amount > maxAmountRequired`, the
verifier returns `Invalid`, and the outcome is independent of every chain
query (in particular of signature validity); when the static address and
match checks pass, amount 6000 against maximum 5000 yields exactly the
reason `Amount 6000 exceeds maximum 5000`. -/
theorem C6_main (config : FacilitatorConfig)
    (e1 e2 : StarknetVerifier.VerifyEnv) (payload : StarknetExactPayload)
    (requirements : PaymentRequirements) :
    (payload.amount ≤ 0 ∨ payload.amount > requirements.maxAmountRequired →
      (StarknetVerifier.verifyExactPayment config e1 payload requirements).isValid = false ∧
      StarknetVerifier.verifyExactPayment config e1 payload requirements =
        StarknetVerifier.verifyExactPayment config e2 payload requirements) ∧
    (addrOk payload → matchOk payload requirements →
     payload.amount = 6000 → requirements.maxAmountRequired = 5000 →
      StarknetVerifier.verifyExactPayment config e1 payload requirements =
        ⟨false, some "Amount 6000 exceeds maximum 5000"⟩) := by
  constructor
  · intro h
    by_cases hs : addrOk payload ∧ matchOk payload requirements
    · obtain ⟨ha, hm⟩ := hs
      rw [verify_of_static_ok config e1 payload requirements ha hm,
        verify_of_static_ok config e2 payload requirements ha hm]
      by_cases hgt : payload.amount > requirements.maxAmountRequired
      · simp [hgt]
      · have hle : payload.amount ≤ 0 := by omega
        simp [hgt, hle]
    · rw [verify_static_fail config e1 payload requirements hs,
        verify_static_fail config e2 payload requirements hs]
      exact ⟨staticReject_isValid payload requirements, rfl⟩
  · intro ha hm h6 h5
    rw [verify_of_static_ok config e1 payload requirements ha hm, h6, h5,
      if_pos (show (6000 : Int) > 5000 by norm_num)]
    rfl

/-- C6, witness: `P_amount6000` (amount 6000) against `R0` (maximum 5000)
is rejected with exactly the reason `Amount 6000 exceeds maximum 5000`,
although `env0`'s signature oracle accepts everything. -/
theorem C6_wit :
    StarknetVerifier.verifyExactPayment cfgSep env0 P_amount6000 R0 =
      ⟨false, some "Amount 6000 exceeds maximum 5000"⟩ :=
  (C6_main cfgSep env0 env0 P_amount6000 R0).2 (by decide) (by decide) rfl rfl

/-- C7: a payload whose deadline is not strictly in the future is
rejected, and a payload whose deadline lies further ahead than
`maxTimeoutSeconds` is rejected even though the deadline is still in the
future; when the preceding checks pass, the reasons are exactly the
expiry reason and the timeout-exceeded reason respectively. -/
theorem C7_main (config : FacilitatorConfig) (env : StarknetVerifier.VerifyEnv)
    (payload : StarknetExactPayload) (requirements : PaymentRequirements) :
    (payload.deadline ≤ env.now →
      (StarknetVerifier.verifyExactPayment config env payload requirements).isValid = false) ∧
    (env.now < payload.deadline →
     payload.deadline - env.now > requirements.maxTimeoutSeconds →
      (StarknetVerifier.verifyExactPayment config env payload requirements).isValid = false) ∧
    (addrOk payload → matchOk payload requirements →
     0 < payload.amount → payload.amount ≤ requirements.maxAmountRequired →
     payload.deadline ≤ env.now →
      StarknetVerifier.verifyExactPayment config env payload requirements =
        ⟨false, some "Payment deadline has expired"⟩) ∧
    (addrOk payload → matchOk payload requirements →
     0 < payload.amount → payload.amount ≤ requirements.maxAmountRequired →
     env.now < payload.deadline →
     payload.deadline - env.now > requirements.maxTimeoutSeconds →
      StarknetVerifier.verifyExactPayment config env payload requirements =
        ⟨false, some "Payment deadline exceeds maximum timeout"⟩) := by
  refine ⟨?_, ?_, ?_, ?_⟩
  · intro h
    by_cases hs : addrOk payload ∧ matchOk payload requirements
    · obtain ⟨ha, hm⟩ := hs
      rw [verify_of_static_ok config env payload requirements ha hm]
      by_cases hgt : payload.amount > requirements.maxAmountRequired
      · simp [hgt]
      · by_cases hle : payload.amount ≤ 0
        · simp [hgt, hle]
        · simp [hgt, hle, h]
    · rw [verify_static_fail config env payload requirements hs]
      exact staticReject_isValid payload requirements
  · intro h1 h2
    by_cases hs : addrOk payload ∧ matchOk payload requirements
    · obtain ⟨ha, hm⟩ := hs
      rw [verify_of_static_ok config env payload requirements ha hm]
      by_cases hgt : payload.amount > requirements.maxAmountRequired
      · simp [hgt]
      · by_cases hle : payload.amount ≤ 0
        · simp [hgt, hle]
        · have hnd : ¬(payload.deadline ≤ env.now) := by omega
          simp [hgt, hle, hnd, h2]
    · rw [verify_static_fail config env payload requirements hs]
      exact staticReject_isValid payload requirements
  · intro ha hm hpos hle h
    rw [verify_of_static_ok config env payload requirements ha hm]
    have hgt : ¬(payload.amount > requirements.maxAmountRequired) := by omega
    have hz : ¬(payload.amount ≤ 0) := by omega
    simp [hgt, hz, h]
  · intro ha hm hpos hle h1 h2
    rw [verify_of_static_ok config env payload requirements ha hm]
    have hgt : ¬(payload.amount > requirements.maxAmountRequired) := by omega
    have hz : ¬(payload.amount ≤ 0) := by omega
    have hnd : ¬(payload.deadline ≤ env.now) := by omega
    simp [hgt, hz, hnd, h2]

/-- C7, witness: `P_expired` (deadline 900, now 1000) is rejected with the
expiry reason; `P0` against a 30-second timeout bound (deadline 60 s away)
is rejected with the timeout-exceeded reason. -/
theorem C7_wit :
    StarknetVerifier.verifyExactPayment cfgSep env0 P_expired R0 =
      ⟨false, some "Payment deadline has expired"⟩ ∧
    StarknetVerifier.verifyExactPayment cfgSep env0 P0
      { R0 with maxTimeoutSeconds := 30 } =
      ⟨false, some "Payment deadline exceeds maximum timeout"⟩ :=
  ⟨(C7_main cfgSep env0 P_expired R0).2.2.1 (by decide) (by decide)
      (by decide) (by decide) (by decide),
   (C7_main cfgSep env0 P0 { R0 with maxTimeoutSeconds := 30 }).2.2.2
      (by decide) (by decide) (by decide) (by decide) (by decide) (by decide)⟩

lemma verifySignature_false_of_both_error (config : FacilitatorConfig)
    (env : StarknetVerifier.VerifyEnv) (payload : StarknetExactPayload) (ex : Exc)
    (hp : env.primaryCall
      (StarknetVerifier.computeTypedPaymentMessageHash config payload) = .error ex)
    (hf : (∃ ef, env.pubKeyCall = .error ef) ∨ (∃ ef, env.ecVerify = .error ef)) :
    StarknetVerifier.verifySignature config env payload = false := by
  unfold StarknetVerifier.verifySignature StarknetVerifier.getAccountPublicKey
  dsimp only
  rw [hp]
  rcases hf with ⟨ef, h2⟩ | ⟨ef, h2⟩
  · simp [h2]
  · rcases hpk : env.pubKeyCall with e3 | l
    · simp [hpk]
    · rcases l with _ | ⟨k, rest⟩ <;> simp [hpk, h2]

/-- C8: the verifier's signature validation is two-tier with a strict
selection rule.  (a) When the primary account-contract query completes,
the outcome does not depend on the fallback oracles (raw public key,
curve verification) at all; (b) a completed primary query whose first
result felt is zero — or whose result is empty — yields signature-invalid
without the fallback; (c) the fallback runs exactly when the primary
query throws, and then decides the outcome; (d) when the primary query
throws and the fallback path errors as well (public-key query or curve
verification), the result is signature-invalid — fail closed, no
propagated error (the function is `Bool`-valued for every environment). -/
theorem C8_main (config : FacilitatorConfig)
    (ea eb : StarknetVerifier.VerifyEnv) (payload : StarknetExactPayload) :
    ((∃ l, ea.primaryCall
        (StarknetVerifier.computeTypedPaymentMessageHash config payload) = .ok l) →
      ea.primaryCall = eb.primaryCall →
      StarknetVerifier.verifySignature config ea payload =
        StarknetVerifier.verifySignature config eb payload) ∧
    (∀ l, ea.primaryCall
        (StarknetVerifier.computeTypedPaymentMessageHash config payload) = .ok l →
      l.head? = some 0 ∨ l.head? = none →
      StarknetVerifier.verifySignature config ea payload = false) ∧
    (∀ ex k rest b, ea.primaryCall
        (StarknetVerifier.computeTypedPaymentMessageHash config payload) = .error ex →
      ea.pubKeyCall = .ok (k :: rest) → ea.ecVerify = .ok b →
      StarknetVerifier.verifySignature config ea payload = b) ∧
    (∀ ex, ea.primaryCall
        (StarknetVerifier.computeTypedPaymentMessageHash config payload) = .error ex →
      ((∃ ef, ea.pubKeyCall = .error ef) ∨ (∃ ef, ea.ecVerify = .error ef)) →
      StarknetVerifier.verifySignature config ea payload = false) := by
  refine ⟨?_, ?_, ?_, ?_⟩
  · rintro ⟨l, hl⟩ hpeq
    unfold StarknetVerifier.verifySignature
    dsimp only
    rw [← hpeq, hl]
  · intro l hl hz
    unfold StarknetVerifier.verifySignature
    dsimp only
    rw [hl]
    rcases hz with h | h <;> simp [h]
  · intro ex k rest b hp hpk hec
    unfold StarknetVerifier.verifySignature StarknetVerifier.getAccountPublicKey
    dsimp only
    rw [hp]
    simp [hpk, hec]
  · intro ex hp hf
    exact verifySignature_false_of_both_error config ea payload ex hp hf

/-- C8, witness: in `envPrimaryZero` the account contract's query
completes and returns zero, and the signature is invalid without the
fallback being consulted. -/
theorem C8_wit :
    StarknetVerifier.verifySignature cfgSep envPrimaryZero P0 = false :=
  (C8_main cfgSep envPrimaryZero envPrimaryZero P0).2.1 [0] rfl (Or.inl rfl)

/-- C4, counterexample: a chain-query error raised during verification is
not always converted into `Invalid` — here the primary signature query
throws, the fallback path validates the signature, and `verify` returns
`Valid`. -/
theorem C4_cex :
    envPrimaryDown.primaryCall
      (StarknetVerifier.computeTypedPaymentMessageHash cfgSep P0) =
      .error (.err "rpc unavailable") ∧
    StarknetVerifier.verifyExactPayment cfgSep envPrimaryDown P0 R0 =
      ⟨true, none⟩ :=
  ⟨rfl, rfl⟩

set_option maxHeartbeats 1600000 in
/-- C4, amended: for every input, `verify` returns a tagged result —
`Valid` (with null reason) or `Invalid{reason}` — and `settle` returns a
tagged result — `Settled{txHash, networkId}` or `Failed{error, networkId}`
with `networkId = requirements.network`; no exception crosses either
boundary (both functions are total over every environment, including
all-error ones).  Chain-query errors during verification never escape:
unless recovered by the signature fallback tier (see the counterexample),
they collapse to `Invalid` — in particular a balance-query error, or
errors in both signature paths, always yield `Invalid`. -/
theorem C4_main :
    (∀ (config : FacilitatorConfig) (env : StarknetVerifier.VerifyEnv)
        (payload : StarknetExactPayload) (requirements : PaymentRequirements),
      StarknetVerifier.verifyExactPayment config env payload requirements =
        ⟨true, none⟩ ∨
      ∃ s, StarknetVerifier.verifyExactPayment config env payload requirements =
        ⟨false, some s⟩) ∧
    (∀ (env : StarknetSettler.SettleEnv) (payload : StarknetExactPayload)
        (requirements : PaymentRequirements),
      (∃ h, (StarknetSettler.settleExactPayment env payload requirements).1 =
        ⟨true, none, some h, requirements.network⟩) ∨
      (∃ s, (StarknetSettler.settleExactPayment env payload requirements).1 =
        ⟨false, some s, none, requirements.network⟩)) ∧
    (∀ (config : FacilitatorConfig) (env : StarknetVerifier.VerifyEnv)
        (payload : StarknetExactPayload) (requirements : PaymentRequirements)
        (e : Exc), env.balanceCall = .error e →
      (StarknetVerifier.verifyExactPayment config env payload requirements).isValid =
        false) ∧
    (∀ (config : FacilitatorConfig) (env : StarknetVerifier.VerifyEnv)
        (payload : StarknetExactPayload) (requirements : PaymentRequirements)
        (ex : Exc),
      env.primaryCall
        (StarknetVerifier.computeTypedPaymentMessageHash config payload) =
        .error ex →
      ((∃ ef, env.pubKeyCall = .error ef) ∨ (∃ ef, env.ecVerify = .error ef)) →
      (StarknetVerifier.verifyExactPayment config env payload requirements).isValid =
        false) := by
  refine ⟨?_, ?_, ?_, ?_⟩
  · intro config env payload requirements
    by_cases hs : addrOk payload ∧ matchOk payload requirements
    · obtain ⟨ha, hm⟩ := hs
      rw [verify_of_static_ok config env payload requirements ha hm]
      by_cases h1 : payload.amount > requirements.maxAmountRequired
      · rw [if_pos h1]; exact Or.inr ⟨_, rfl⟩
      rw [if_neg h1]
      by_cases h2 : payload.amount ≤ 0
      · rw [if_pos h2]; exact Or.inr ⟨_, rfl⟩
      rw [if_neg h2]
      by_cases h3 : payload.deadline ≤ env.now
      · rw [if_pos h3]; exact Or.inr ⟨_, rfl⟩
      rw [if_neg h3]
      by_cases h4 : payload.deadline - env.now > requirements.maxTimeoutSeconds
      · rw [if_pos h4]; exact Or.inr ⟨_, rfl⟩
      rw [if_neg h4]
      by_cases h5 : (!StarknetVerifier.verifySignature config env payload) = true
      · rw [if_pos h5]; exact Or.inr ⟨_, rfl⟩
      rw [if_neg h5]
      by_cases h6 : (!StarknetVerifier.verifyNonce payload) = true
      · rw [if_pos h6]; exact Or.inr ⟨_, rfl⟩
      rw [if_neg h6]
      by_cases h7 : (!StarknetVerifier.checkBalance env payload.amount) = true
      · rw [if_pos h7]; exact Or.inr ⟨_, rfl⟩
      rw [if_neg h7]
      exact Or.inl rfl
    · rw [verify_static_fail config env payload requirements hs]
      obtain ⟨s, hsr⟩ := staticReject_shape payload requirements
      exact Or.inr ⟨s, hsr⟩
  · intro env payload requirements
    unfold StarknetSettler.settleExactPayment StarknetSettler.executePayment
    dsimp only
    by_cases hacc : (!env.hasAccount) = true
    · rw [if_pos hacc]
      exact Or.inr ⟨_, rfl⟩
    · rw [if_neg hacc, if_neg hacc]
      rcases hex : env.execute (StarknetSettler.executePaymentCall payload) with e | o
      · exact Or.inr ⟨_, rfl⟩
      · rcases o with _ | h
        · exact Or.inr ⟨_, rfl⟩
        · dsimp only
          rcases hw : env.providerWait h with e2 | u
          · exact Or.inr ⟨_, rfl⟩
          · exact Or.inl ⟨h, rfl⟩
  · intro config env payload requirements e hbal
    have hcb : StarknetVerifier.checkBalance env payload.amount = false := by
      unfold StarknetVerifier.checkBalance
      rw [hbal]
    by_cases hs : addrOk payload ∧ matchOk payload requirements
    · obtain ⟨ha, hm⟩ := hs
      rw [verify_of_static_ok config env payload requirements ha hm]
      by_cases h1 : payload.amount > requirements.maxAmountRequired
      · rw [if_pos h1]
      rw [if_neg h1]
      by_cases h2 : payload.amount ≤ 0
      · rw [if_pos h2]
      rw [if_neg h2]
      by_cases h3 : payload.deadline ≤ env.now
      · rw [if_pos h3]
      rw [if_neg h3]
      by_cases h4 : payload.deadline - env.now > requirements.maxTimeoutSeconds
      · rw [if_pos h4]
      rw [if_neg h4]
      by_cases h5 : (!StarknetVerifier.verifySignature config env payload) = true
      · rw [if_pos h5]
      rw [if_neg h5]
      by_cases h6 : (!StarknetVerifier.verifyNonce payload) = true
      · rw [if_pos h6]
      rw [if_neg h6]
      rw [if_pos (show (!StarknetVerifier.checkBalance env payload.amount) = true by
        rw [hcb]; rfl)]
    · rw [verify_static_fail config env payload requirements hs]
      exact staticReject_isValid payload requirements
  · intro config env payload requirements ex hp hf
    have hsig := verifySignature_false_of_both_error config env payload ex hp hf
    by_cases hs : addrOk payload ∧ matchOk payload requirements
    · obtain ⟨ha, hm⟩ := hs
      rw [verify_of_static_ok config env payload requirements ha hm]
      by_cases h1 : payload.amount > requirements.maxAmountRequired
      · rw [if_pos h1]
      rw [if_neg h1]
      by_cases h2 : payload.amount ≤ 0
      · rw [if_pos h2]
      rw [if_neg h2]
      by_cases h3 : payload.deadline ≤ env.now
      · rw [if_pos h3]
      rw [if_neg h3]
      by_cases h4 : payload.deadline - env.now > requirements.maxTimeoutSeconds
      · rw [if_pos h4]
      rw [if_neg h4]
      rw [if_pos (show (!StarknetVerifier.verifySignature config env payload) = true by
        rw [hsig]; rfl)]
    · rw [verify_static_fail config env payload requirements hs]
      exact staticReject_isValid payload requirements

/-- C4, witness: with the balance query throwing, verification still
returns a tagged `Invalid` decision. -/
theorem C4_wit :
    (StarknetVerifier.verifyExactPayment cfgSep envBalanceDown P0 R0).isValid =
      false :=
  C4_main.2.2.1 cfgSep envBalanceDown P0 R0 (Exc.err "balance rpc down") rfl

/-- C9: each settle call performs at most one state-mutating submission —
none when the facilitator account is missing — with no retry on
submission failure (an `execute` error still leaves exactly the single
submission, reported as `Failed`); and the submitted call is exactly the
delegated-transfer instruction: ERC20 `transfer_from` on `payload.token`
moving `payload.amount` (as a u256 low/high pair) from `payload.from` to
`payload.to`, executed through the facilitator's own account handle
(`SettleEnv.execute` models `account.execute`). -/
theorem C9_main (env : StarknetSettler.SettleEnv)
    (payload : StarknetExactPayload) (requirements : PaymentRequirements) :
    (StarknetSettler.settleExactPayment env payload requirements).2.length ≤ 1 ∧
    (env.hasAccount = false →
      (StarknetSettler.settleExactPayment env payload requirements).2 = []) ∧
    (∀ c ∈ (StarknetSettler.settleExactPayment env payload requirements).2,
      c = StarknetSettler.executePaymentCall payload ∧
      c.contractAddress = payload.token ∧
      c.entrypoint = "transfer_from" ∧
      c.sender = payload.«from» ∧
      c.recipient = payload.«to» ∧
      c.amountLow + 2 ^ 128 * c.amountHigh = payload.amount) ∧
    (env.hasAccount = true →
      ∀ e, env.execute (StarknetSettler.executePaymentCall payload) = .error e →
      (StarknetSettler.settleExactPayment env payload requirements).1.success = false ∧
      (StarknetSettler.settleExactPayment env payload requirements).2 =
        [StarknetSettler.executePaymentCall payload]) := by
  unfold StarknetSettler.settleExactPayment StarknetSettler.executePayment
  by_cases hacc : (!env.hasAccount) = true
  · rw [if_pos hacc]
    refine ⟨Nat.zero_le 1, fun _ => rfl, ?_, ?_⟩
    · intro c hc
      exact absurd hc (List.not_mem_nil c)
    · intro ha _ _
      rw [ha] at hacc
      exact absurd hacc (by decide)
  · rw [if_neg hacc, if_neg hacc]
    dsimp only
    rcases hex : env.execute (StarknetSettler.executePaymentCall payload) with e | o
    · refine ⟨Nat.le_refl 1, ?_, ?_, fun _ _ _ => ⟨rfl, rfl⟩⟩
      · intro hfa
        rw [hfa] at hacc
        exact absurd rfl hacc
      · intro c hc
        have hc2 : c ∈ [StarknetSettler.executePaymentCall payload] := hc
        obtain rfl := List.mem_singleton.mp hc2
        refine ⟨rfl, rfl, rfl, rfl, rfl, ?_⟩
        show payload.amount % 2 ^ 128 + 2 ^ 128 * (payload.amount / 2 ^ 128) =
          payload.amount
        omega
    · rcases o with _ | h
      · refine ⟨Nat.le_refl 1, ?_, ?_, ?_⟩
        · intro hfa
          rw [hfa] at hacc
          exact absurd rfl hacc
        · intro c hc
          have hc2 : c ∈ [StarknetSettler.executePaymentCall payload] := hc
          obtain rfl := List.mem_singleton.mp hc2
          refine ⟨rfl, rfl, rfl, rfl, rfl, ?_⟩
          show payload.amount % 2 ^ 128 + 2 ^ 128 * (payload.amount / 2 ^ 128) =
            payload.amount
          omega
        · intro _ e2 hex2
          exact Except.noConfusion hex2
      · dsimp only
        rcases hw : env.providerWait h with e2 | u
        · refine ⟨Nat.le_refl 1, ?_, ?_, ?_⟩
          · intro hfa
            rw [hfa] at hacc
            exact absurd rfl hacc
          · intro c hc
            have hc2 : c ∈ [StarknetSettler.executePaymentCall payload] := hc
            obtain rfl := List.mem_singleton.mp hc2
            refine ⟨rfl, rfl, rfl, rfl, rfl, ?_⟩
            show payload.amount % 2 ^ 128 + 2 ^ 128 * (payload.amount / 2 ^ 128) =
              payload.amount
            omega
          · intro _ e3 hex2
            exact Except.noConfusion hex2
        · refine ⟨Nat.le_refl 1, ?_, ?_, ?_⟩
          · intro hfa
            rw [hfa] at hacc
            exact absurd rfl hacc
          · intro c hc
            have hc2 : c ∈ [StarknetSettler.executePaymentCall payload] := hc
            obtain rfl := List.mem_singleton.mp hc2
            refine ⟨rfl, rfl, rfl, rfl, rfl, ?_⟩
            show payload.amount % 2 ^ 128 + 2 ^ 128 * (payload.amount / 2 ^ 128) =
              payload.amount
            omega
          · intro _ e3 hex2
            exact Except.noConfusion hex2

/-- C9, witness: in `settleEnv0` the settlement submits exactly one call,
the `transfer_from` built from `P0`, whose u256 amount recomposes to
`P0.amount`. -/
theorem C9_wit :
    (∀ c ∈ (StarknetSettler.settleExactPayment settleEnv0 P0 R0).2,
      c = StarknetSettler.executePaymentCall P0 ∧
      c.contractAddress = P0.token ∧
      c.entrypoint = "transfer_from" ∧
      c.sender = P0.«from» ∧
      c.recipient = P0.«to» ∧
      c.amountLow + 2 ^ 128 * c.amountHigh = P0.amount) ∧
    (StarknetSettler.settleExactPayment settleEnv0 P0 R0).2.length ≤ 1 :=
  ⟨(C9_main settleEnv0 P0 R0).2.2.1, (C9_main settleEnv0 P0 R0).1⟩

lemma waitAux_of_pending (receipts : Nat → StarknetSettler.PollResult)
    (i fuel : Nat)
    (h : ∀ j, j < fuel → StarknetSettler.pollStep (receipts (i + j)) = none) :
    StarknetSettler.waitForTransactionAux receipts i fuel =
      .error (.err "Transaction confirmation timeout") := by
  induction fuel generalizing i with
  | zero => rfl
  | succ n ih =>
    unfold StarknetSettler.waitForTransactionAux
    have h0 : StarknetSettler.pollStep (receipts i) = none := by
      have h1 := h 0 (Nat.succ_pos n)
      simpa using h1
    rw [h0]
    exact ih (i + 1) (fun j hj => by
      have h2 := h (j + 1) (Nat.succ_lt_succ hj)
      rw [show i + (j + 1) = i + 1 + j by omega] at h2
      exact h2)

lemma waitAux_of_terminal (receipts : Nat → StarknetSettler.PollResult)
    (i fuel k : Nat) (o : Except Exc Unit) (hk : k < fuel)
    (hnone : ∀ j, j < k → StarknetSettler.pollStep (receipts (i + j)) = none)
    (hterm : StarknetSettler.pollStep (receipts (i + k)) = some o) :
    StarknetSettler.waitForTransactionAux receipts i fuel = o := by
  induction fuel generalizing i k with
  | zero => omega
  | succ n ih =>
    unfold StarknetSettler.waitForTransactionAux
    rcases k with _ | k2
    · rw [show i + 0 = i by omega] at hterm
      rw [hterm]
    · have h0 : StarknetSettler.pollStep (receipts i) = none := by
        have h1 := hnone 0 (Nat.succ_pos k2)
        simpa using h1
      rw [h0]
      refine ih (i + 1) k2 (by omega) (fun j hj => ?_) ?_
      · have h2 := hnone (j + 1) (Nat.succ_lt_succ hj)
        rw [show i + (j + 1) = i + 1 + j by omega] at h2
        exact h2
      · rw [show i + (k2 + 1) = i + 1 + k2 by omega] at hterm
        exact hterm

/-- C2, counterexample: the settler's own 2 s/60 s poller is never invoked
by `settleExactPayment`.  In `settleEnvLateConfirm` the chain reports no
terminal status within the 60 s budget (every receipt in the first 30
polls is pending; the transaction only succeeds from the 46th poll, i.e.
after 90 s), so the claim demands `Failed` with the confirmation-timeout
reason — and indeed the in-class poller would time out — yet `settle`,
which delegates to the provider's own unbounded wait, returns `Settled`. -/
theorem C2_cex :
    StarknetSettler.waitForTransaction settleEnvLateConfirm 60000 =
      .error (.err "Transaction confirmation timeout") ∧
    (∀ j, j < 30 → settleEnvLateConfirm.receipts j =
      .receipt none none) ∧
    settleEnvLateConfirm.receipts 45 = .receipt (some "SUCCEEDED") none ∧
    (StarknetSettler.settleExactPayment settleEnvLateConfirm P0 R0).1 =
      ⟨true, none, some "0xabc", "starknet-sepolia"⟩ :=
  ⟨rfl, by decide, rfl, rfl⟩

/-- C2, amended: `settleExactPayment` does not run the Settler's own
poller; it delegates confirmation to the chain-access provider's wait
primitive, returning `Settled{txHash, networkId}` when that wait completes
and `Failed{message, networkId}` when it throws.  The Settler's own
`waitForTransaction` — present but never called by `settle` — has exactly
the claimed semantics: it polls every 2 s within a 60 s budget (30 polls),
exits with success on a `SUCCEEDED` receipt, throws
`Transaction reverted: reason-or-'Unknown reason'` on a `REVERTED` receipt,
swallows and retries `Transaction hash not found` lookup errors, and
throws `Transaction confirmation timeout` when no termination happens
within the budget. -/
theorem C2_main :
    (∀ (env : StarknetSettler.SettleEnv) (payload : StarknetExactPayload)
        (requirements : PaymentRequirements) (txHash : String),
      env.hasAccount = true →
      env.execute (StarknetSettler.executePaymentCall payload) =
        .ok (some txHash) →
      (env.providerWait txHash = .ok () →
        (StarknetSettler.settleExactPayment env payload requirements).1 =
          ⟨true, none, some txHash, requirements.network⟩) ∧
      (∀ e, env.providerWait txHash = .error e →
        (StarknetSettler.settleExactPayment env payload requirements).1 =
          ⟨false, some (e.message "Settlement failed"), none,
            requirements.network⟩)) ∧
    (∀ (env : StarknetSettler.SettleEnv) (k : Nat) (o : Except Exc Unit),
      k < 30 →
      (∀ j, j < k → StarknetSettler.pollStep (env.receipts j) = none) →
      StarknetSettler.pollStep (env.receipts k) = some o →
      StarknetSettler.waitForTransaction env 60000 = o) ∧
    (∀ env : StarknetSettler.SettleEnv,
      (∀ j, j < 30 → StarknetSettler.pollStep (env.receipts j) = none) →
      StarknetSettler.waitForTransaction env 60000 =
        .error (.err "Transaction confirmation timeout")) ∧
    (∀ r, StarknetSettler.pollStep (.receipt (some "SUCCEEDED") r) =
      some (.ok ())) ∧
    (∀ m, strContains m "Transaction hash not found" = true →
      StarknetSettler.pollStep (.failure (.err m)) = none) ∧
    (∀ r, strContains ("Transaction reverted: " ++ r.getD "Unknown reason")
        "Transaction hash not found" = false →
      StarknetSettler.pollStep (.receipt (some "REVERTED") r) =
        some (.error (.err ("Transaction reverted: " ++
          r.getD "Unknown reason")))) := by
  refine ⟨?_, ?_, ?_, ?_, ?_, ?_⟩
  · intro env payload requirements txHash ha hexec
    have hacc : ¬((!env.hasAccount) = true) := by
      rw [ha]
      decide
    unfold StarknetSettler.settleExactPayment StarknetSettler.executePayment
    rw [if_neg hacc, if_neg hacc]
    dsimp only
    rw [hexec]
    dsimp only
    constructor
    · intro hw
      rw [hw]
    · intro e hw
      rw [hw]
  · intro env k o hk hnone hterm
    unfold StarknetSettler.waitForTransaction
    rw [show (60000 + 1999) / 2000 = 30 by norm_num]
    refine waitAux_of_terminal env.receipts 0 30 k o hk (fun j hj => ?_) ?_
    · rw [show 0 + j = j by omega]
      exact hnone j hj
    · rw [show 0 + k = k by omega]
      exact hterm
  · intro env hall
    unfold StarknetSettler.waitForTransaction
    rw [show (60000 + 1999) / 2000 = 30 by norm_num]
    refine waitAux_of_pending env.receipts 0 30 (fun j hj => ?_)
    rw [show 0 + j = j by omega]
    exact hall j hj
  · intro r
    rfl
  · intro m h
    unfold StarknetSettler.pollStep
    simp [h]
  · intro r h
    unfold StarknetSettler.pollStep
    simp [h]

/-- C2, witness: in `settleEnv0` (submission succeeds with hash `0xabc`,
the provider wait completes) `settle` returns `Settled`, while the
Settler's own poller, fed a first receipt reporting success, also exits
successfully. -/
theorem C2_wit :
    (StarknetSettler.settleExactPayment settleEnv0 P0 R0).1 =
      ⟨true, none, some "0xabc", "starknet-sepolia"⟩ ∧
    StarknetSettler.waitForTransaction settleEnv0 60000 = .ok () :=
  ⟨(C2_main.1 settleEnv0 P0 R0 "0xabc" rfl rfl).1 rfl,
   C2_main.2.1 settleEnv0 0 (.ok ()) (by decide)
     (fun j hj => absurd hj (Nat.not_lt_zero j)) rfl⟩
